import Mathlib

/-!
Verification of the homebase-rental application core logic.

Shallow embedding of the role-scoped data-access and statistics layer:
the landlord dashboard statistics aggregation
(`src/components/landlord/LandlordDashboard.tsx`), the paginated property
catalog reader (`src/components/tenant/AvailablePropertiesSection.tsx`),
the landlord-contact messaging dialog
(`src/components/tenant/ContactLandlordDialog.tsx`), and the CRUD mutation
handlers of the properties, leases and payments sections.

External effects (auth lookup, database queries, inserts) are modelled as
explicit inputs (`Option`/`Except` values carrying the result the external
service returned); each handler becomes a pure function from those inputs
to the record of effects it performs (persistence attempts, refresh calls,
toast shown).  Numeric amounts (JavaScript numbers) are modelled as `ℚ`.
-/

set_option maxRecDepth 8000

namespace Homebase

/-- A rent-payment row as fetched by the landlord dashboard:
`select("amount, late_fee, status, ...")` on `rent_payments`. -/
structure Payment where
  amount : ℚ
  late_fee : ℚ
  status : String
deriving DecidableEq

/-- The accumulator of the single-pass `reduce` in `loadStats`. -/
structure PaymentAcc where
  pendingPayments : Nat
  totalRevenue : ℚ
deriving DecidableEq

/-- One step of the `reduce` in `loadStats` (LandlordDashboard.tsx, lines
41-51): increment `pendingPayments` when the status is `pending` or
`overdue`, else add `amount + late_fee` to `totalRevenue` when the status
is `paid`. -/
def paymentReduceStep (acc : PaymentAcc) (p : Payment) : PaymentAcc :=
  if p.status == "pending" || p.status == "overdue" then
    { acc with pendingPayments := acc.pendingPayments + 1 }
  else if p.status == "paid" then
    { acc with totalRevenue := acc.totalRevenue + (p.amount + p.late_fee) }
  else
    acc

/-- The payment statistics computed by `loadStats`: the reduce over the
fetched payment rows, starting from `{ pendingPayments: 0, totalRevenue: 0 }`. -/
def paymentStats (payments : List Payment) : PaymentAcc :=
  payments.foldl paymentReduceStep ⟨0, 0⟩

theorem paymentReduceStep_spec (acc : PaymentAcc) (p : Payment) :
    paymentReduceStep acc p =
      { pendingPayments := acc.pendingPayments +
          (if p.status == "pending" || p.status == "overdue" then 1 else 0),
        totalRevenue := acc.totalRevenue +
          (if p.status == "paid" ∧
              ¬(p.status = "pending" ∨ p.status = "overdue") then
            p.amount + p.late_fee else 0) } := by
  unfold paymentReduceStep
  by_cases h1 : p.status = "pending" ∨ p.status = "overdue"
  · have hb : (p.status == "pending" || p.status == "overdue") = true := by
      rcases h1 with h | h <;> simp [h]
    simp [hb, h1]
  · have hb : (p.status == "pending" || p.status == "overdue") = false := by
      simp only [Bool.or_eq_false_iff, beq_eq_false_iff_ne]
      exact ⟨fun h => h1 (Or.inl h), fun h => h1 (Or.inr h)⟩
    by_cases h2 : p.status = "paid"
    · simp [hb, h1, h2]
    · have hb2 : (p.status == "paid") = false := by simp [h2]
      simp [hb, hb2, h1, h2]

theorem paymentStats_foldl (ps : List Payment) (acc : PaymentAcc) :
    ps.foldl paymentReduceStep acc =
      { pendingPayments := acc.pendingPayments +
          (ps.filter fun p =>
            p.status == "pending" || p.status == "overdue").length,
        totalRevenue := acc.totalRevenue +
          ((ps.filter fun p => p.status == "paid").map
            fun p => p.amount + p.late_fee).sum } := by
  induction ps generalizing acc with
  | nil => simp
  | cons p ps ih =>
    rw [List.foldl_cons, ih, paymentReduceStep_spec]
    by_cases h1 : p.status = "pending" ∨ p.status = "overdue"
    · have hb : (p.status == "pending" || p.status == "overdue") = true := by
        rcases h1 with h | h <;> simp [h]
      have hb2 : (p.status == "paid") = false := by
        rcases h1 with h | h <;> simp [h]
      simp [List.filter_cons, hb, hb2, h1]
      omega
    · have hb : (p.status == "pending" || p.status == "overdue") = false := by
        simp only [Bool.or_eq_false_iff, beq_eq_false_iff_ne]
        exact ⟨fun h => h1 (Or.inl h), fun h => h1 (Or.inr h)⟩
      by_cases h2 : p.status = "paid"
      · simp [List.filter_cons, hb, h1, h2]
        ring
      · have hb2 : (p.status == "paid") = false := by simp [h2]
        simp [List.filter_cons, hb, hb2, h1, h2]

/-- C1: the landlord statistics aggregation, applied to any list of
payments, returns `pendingPayments` equal to the number of payments whose
status is `pending` or `overdue`, and `totalRevenue` equal to the sum of
`amount + late_fee` over exactly the payments whose status is `paid`; on
the concrete list `[{amount 100, paid, late_fee 0}, {amount 150, pending}]`
it yields `pendingPayments = 1` and `totalRevenue = 100`. -/
theorem loadStats_payment_aggregation (ps : List Payment) :
    (paymentStats ps).pendingPayments =
      (ps.filter fun p =>
        p.status == "pending" || p.status == "overdue").length ∧
    (paymentStats ps).totalRevenue =
      ((ps.filter fun p => p.status == "paid").map
        fun p => p.amount + p.late_fee).sum ∧
    paymentStats [⟨100, 0, "paid"⟩, ⟨150, 0, "pending"⟩] =
      ⟨1, 100⟩ := by
  refine ⟨?_, ?_, ?_⟩
  · rw [paymentStats, paymentStats_foldl]
    simp
  · rw [paymentStats, paymentStats_foldl]
    simp
  · rw [paymentStats, paymentStats_foldl]
    simp +decide [List.filter_cons]

/-- The four dashboard statistics set by `loadStats`. -/
structure Stats where
  properties : Nat
  activeLeases : Nat
  pendingPayments : Nat
  totalRevenue : ℚ
deriving DecidableEq

/-- `loadStats` (LandlordDashboard.tsx, lines 21-69), with the three
concurrent fetches modelled as `Except` inputs carrying either the fetched
value or the error the persistence service returned.  The code throws on
the first fetch whose `.error` field is set and the surrounding
`try/catch` turns any such throw into the all-zero statistics, so any
error among the three results yields the zero record; the function always
returns a `Stats` value (the error is logged, never propagated). -/
def loadStats (propertiesRes leasesRes : Except String Nat)
    (paymentsRes : Except String (List Payment)) : Stats :=
  match propertiesRes, leasesRes, paymentsRes with
  | .ok propertiesCount, .ok leasesCount, .ok paymentRows =>
      let s := paymentStats paymentRows
      { properties := propertiesCount, activeLeases := leasesCount,
        pendingPayments := s.pendingPayments,
        totalRevenue := s.totalRevenue }
  | _, _, _ =>
      { properties := 0, activeLeases := 0, pendingPayments := 0,
        totalRevenue := 0 }

/-- C4: if any of the three aggregator fetches fails, `loadStats` sets all
four statistics to zero; the error is not propagated (the function is
total and returns the zero `Stats` record rather than an error). -/
theorem loadStats_fail_soft (propertiesRes leasesRes : Except String Nat)
    (paymentsRes : Except String (List Payment))
    (h : propertiesRes.isOk = false ∨ leasesRes.isOk = false ∨
      paymentsRes.isOk = false) :
    loadStats propertiesRes leasesRes paymentsRes =
      { properties := 0, activeLeases := 0, pendingPayments := 0,
        totalRevenue := 0 } := by
  cases propertiesRes <;> cases leasesRes <;> cases paymentsRes <;>
    simp_all [loadStats, Except.isOk, Except.toBool]

theorem loadStats_fail_soft_witness :
    loadStats (.error "network failure") (.ok 3) (.ok [⟨100, 0, "paid"⟩]) =
      { properties := 0, activeLeases := 0, pendingPayments := 0,
        totalRevenue := 0 } :=
  loadStats_fail_soft (.error "network failure") (.ok 3)
    (.ok [⟨100, 0, "paid"⟩]) (Or.inl rfl)

/-! ## Property catalog reader (AvailablePropertiesSection.tsx) -/

/-- `PAGE_SIZE` (AvailablePropertiesSection.tsx, line 10). -/
def PAGE_SIZE : Nat := 12

/-- A row of the available-properties catalog as selected by the reader:
`select("id, name, address, unit_number, landlord_id, created_at,
rent_amount")`. -/
structure CatalogRow where
  id : String
  name : String
  address : String
  unit_number : Option String
  landlord_id : String
  created_at : String
  rent_amount : ℚ
deriving DecidableEq

/-- The query issued by the catalog reader for a page index: filter
`status = available`, order by `created_at` descending, and request the
inclusive row range `[offset, offset + PAGE_SIZE - 1]` where
`offset = pageIndex * PAGE_SIZE` (AvailablePropertiesSection.tsx,
lines 13-24). -/
structure CatalogQuery where
  statusFilter : String
  orderColumn : String
  orderAscending : Bool
  rangeFrom : Nat
  rangeTo : Nat
deriving DecidableEq

def availablePropertiesQuery (pageIndex : Nat) : CatalogQuery :=
  { statusFilter := "available", orderColumn := "created_at",
    orderAscending := false,
    rangeFrom := pageIndex * PAGE_SIZE,
    rangeTo := pageIndex * PAGE_SIZE + PAGE_SIZE - 1 }

/-- C2: for every page index `p`, the catalog reader requests the rows at
offset `p * 12` with limit 12 — the inclusive range `[p*12, p*12 + 11]`,
i.e. the half-open range `[p*12, p*12 + 12)` — filtered to available
properties and ordered by creation time descending. -/
theorem availablePropertiesQuery_offset_limit (p : Nat) :
    (availablePropertiesQuery p).rangeFrom = p * 12 ∧
    (availablePropertiesQuery p).rangeTo + 1 = p * 12 + 12 ∧
    (availablePropertiesQuery p).rangeTo + 1 -
      (availablePropertiesQuery p).rangeFrom = 12 ∧
    (availablePropertiesQuery p).statusFilter = "available" ∧
    (availablePropertiesQuery p).orderColumn = "created_at" ∧
    (availablePropertiesQuery p).orderAscending = false := by
  refine ⟨rfl, ?_, ?_, rfl, rfl, rfl⟩
  · simp [availablePropertiesQuery, PAGE_SIZE]
  · simp [availablePropertiesQuery, PAGE_SIZE]
    omega

/-- `hasNextPage` (line 39): the fetched page has a next page exactly when
its length equals `PAGE_SIZE`. -/
def hasNextPage (page : List CatalogRow) : Bool :=
  page.length == PAGE_SIZE

/-- `hasPrevPage` (line 40): `pageIndex > 0`. -/
def hasPrevPage (pageIndex : Nat) : Bool :=
  decide (0 < pageIndex)

/-- The previous-page button is rendered with `disabled={!hasPrevPage}`
(line 126). -/
def prevDisabled (pageIndex : Nat) : Bool :=
  !hasPrevPage pageIndex

/-- The next-page button is rendered with `disabled={!hasNextPage}`
(line 138). -/
def nextDisabled (page : List CatalogRow) : Bool :=
  !hasNextPage page

/-- A sample catalog row, used to state the concrete page examples. -/
def sampleRow : CatalogRow :=
  { id := "p1", name := "Sunset Flat", address := "1 Main St",
    unit_number := none, landlord_id := "l1",
    created_at := "2025-10-23", rent_amount := 1200 }

/-- C3: the has-next-page flag is true exactly when the fetched page
length equals the page size 12 (a 12-row page reports `true`, a 5-row
page reports `false`); the previous-page control is disabled exactly at
page index 0, and the next-page control is disabled exactly when the flag
is false. -/
theorem pagination_controls (page : List CatalogRow) (pageIndex : Nat) :
    (hasNextPage page = true ↔ page.length = 12) ∧
    (prevDisabled pageIndex = true ↔ pageIndex = 0) ∧
    (nextDisabled page = true ↔ ¬page.length = 12) ∧
    hasNextPage (List.replicate 12 sampleRow) = true ∧
    hasNextPage (List.replicate 5 sampleRow) = false := by
  refine ⟨?_, ?_, ?_, ?_, ?_⟩ <;>
    simp [hasNextPage, prevDisabled, nextDisabled, hasPrevPage, PAGE_SIZE]

theorem pagination_controls_witness :
    prevDisabled 0 = true :=
  ((pagination_controls [] 0).2.1).mpr rfl

/-- `handlePrevPage` (lines 31-33): `Math.max(0, prev - 1)`. -/
def handlePrevPage (pageIndex : Int) : Int :=
  max 0 (pageIndex - 1)

/-- `handleNextPage` (lines 35-37): `prev + 1`. -/
def handleNextPage (pageIndex : Int) : Int :=
  pageIndex + 1

/-- A user pagination action: clicking Previous or Next. -/
inductive PageAction where
  | prev
  | next
deriving DecidableEq

/-- The page-index transition for one action. -/
def pageStep (pageIndex : Int) : PageAction → Int
  | .prev => handlePrevPage pageIndex
  | .next => handleNextPage pageIndex

/-- The page index reached from the initial state (`useState(0)`) by a
sequence of Previous/Next clicks. -/
def runPageActions (actions : List PageAction) : Int :=
  actions.foldl pageStep 0

theorem pageStep_nonneg (pageIndex : Int) (h : 0 ≤ pageIndex)
    (a : PageAction) : 0 ≤ pageStep pageIndex a := by
  cases a with
  | prev => exact le_max_left 0 _
  | next => show 0 ≤ pageIndex + 1; omega

theorem foldl_pageStep_nonneg (actions : List PageAction) :
    ∀ pageIndex : Int, 0 ≤ pageIndex →
      0 ≤ actions.foldl pageStep pageIndex := by
  induction actions with
  | nil => intro p h; simpa using h
  | cons a as ih =>
    intro p h
    exact ih (pageStep p a) (pageStep_nonneg p h a)

/-- C10: the catalog page index starts at 0, Next increments it by 1,
Previous maps `p` to `max 0 (p - 1)`, and no sequence of Previous/Next
actions can produce a negative page index; in particular Previous on page
0 leaves it at 0. -/
theorem pageIndex_never_negative :
    (∀ actions : List PageAction, 0 ≤ runPageActions actions) ∧
    handlePrevPage 0 = 0 ∧
    (∀ p : Int, handleNextPage p = p + 1) ∧
    (∀ p : Int, handlePrevPage p = max 0 (p - 1)) := by
  refine ⟨fun actions => foldl_pageStep_nonneg actions 0 le_rfl, rfl,
    fun p => rfl, fun p => rfl⟩

/-- C9 (implicit): in the statistics aggregation every payment affects at
most one statistic — a payment whose status is `partial` (or any status
other than `pending`, `overdue`, `paid`) leaves the accumulator unchanged,
and no single payment ever changes both the pending count and the
revenue. -/
theorem payment_single_statistic (acc : PaymentAcc) (p : Payment) :
    (p.status = "partial" → paymentReduceStep acc p = acc) ∧
    (¬(p.status = "pending" ∨ p.status = "overdue" ∨ p.status = "paid") →
      paymentReduceStep acc p = acc) ∧
    ¬((paymentReduceStep acc p).pendingPayments ≠ acc.pendingPayments ∧
      (paymentReduceStep acc p).totalRevenue ≠ acc.totalRevenue) := by
  refine ⟨?_, ?_, ?_⟩
  · intro h
    simp [paymentReduceStep, h]
  · intro h
    push_neg at h
    obtain ⟨h1, h2, h3⟩ := h
    simp [paymentReduceStep, h1, h2, h3]
  · rintro ⟨h1, h2⟩
    rw [paymentReduceStep_spec] at h1 h2
    by_cases hb : (p.status == "pending" || p.status == "overdue") = true
    · have : p.status = "pending" ∨ p.status = "overdue" := by
        simpa using hb
      simp [hb, this] at h2
    · simp [hb] at h1

theorem payment_single_statistic_witness :
    paymentReduceStep ⟨0, 0⟩ ⟨150, 0, "partial"⟩ = ⟨0, 0⟩ :=
  (payment_single_statistic ⟨0, 0⟩ ⟨150, 0, "partial"⟩).1 rfl

/-! ## Messaging dialog (ContactLandlordDialog.tsx) -/

/-- JavaScript `String.prototype.trim`: strip whitespace from both ends,
modelled on the character list of the message. -/
def jsTrim (s : List Char) : List Char :=
  ((s.dropWhile Char.isWhitespace).reverse.dropWhile
    Char.isWhitespace).reverse

/-- `trimmedMessage` (ContactLandlordDialog.tsx, line 36). -/
def trimmedMessage (message : List Char) : List Char :=
  jsTrim message

/-- `isValid` (line 37): `trimmedMessage.length >= 1 &&
trimmedMessage.length <= 500`. -/
def isValid (message : List Char) : Bool :=
  decide (1 ≤ (trimmedMessage message).length) &&
    decide ((trimmedMessage message).length ≤ 500)

/-- The observable outcome of one run of the messaging dialog submit
handler. -/
inductive MsgOutcome where
  | blocked
  | authRequired
  | permissionDenied
  | genericFailure
  | sent
deriving DecidableEq

/-- Effects of the messaging submit handler: which outcome it took, how
many insert calls it issued, and the title of the toast it showed. -/
structure MsgEffects where
  outcome : MsgOutcome
  insertAttempts : Nat
  toastTitle : Option String
deriving DecidableEq

/-- `handleSubmit` (ContactLandlordDialog.tsx, lines 40-114): return
early when the message is invalid or a submit is in flight; toast
`Authentication required` when no user; otherwise insert once and, on an
insert error, toast `Permission denied` when the error code is `42501`
and `Failed to send message` otherwise; on success toast `Message sent`.
The auth lookup and the insert result are modelled as inputs. -/
def messageHandleSubmit (message : List Char) (isSubmitting : Bool)
    (user : Option String) (insertErrorCode : Option String) : MsgEffects :=
  if !isValid message || isSubmitting then
    ⟨.blocked, 0, none⟩
  else
    match user with
    | none => ⟨.authRequired, 0, some "Authentication required"⟩
    | some _ =>
      match insertErrorCode with
      | some code =>
          if code = "42501" then
            ⟨.permissionDenied, 1, some "Permission denied"⟩
          else
            ⟨.genericFailure, 1, some "Failed to send message"⟩
      | none => ⟨.sent, 1, some "Message sent"⟩

/-- C6: message composition is valid exactly when the trimmed length is
between 1 and 500 inclusive; invalid input is rejected without an insert
attempt; the empty message and a 501-character message are invalid, an
exactly-500-character message is valid. -/
theorem message_validation (message : List Char) :
    (isValid message = true ↔
      1 ≤ (trimmedMessage message).length ∧
        (trimmedMessage message).length ≤ 500) ∧
    (∀ (isSubmitting : Bool) (user insertErrorCode : Option String),
      isValid message = false →
      messageHandleSubmit message isSubmitting user insertErrorCode =
        ⟨.blocked, 0, none⟩) ∧
    isValid (List.replicate 500 'a') = true ∧
    isValid ([] : List Char) = false ∧
    isValid [' ', ' '] = false ∧
    isValid (List.replicate 501 'a') = false := by
  refine ⟨by simp [isValid], ?_, by decide, by decide, by decide, by decide⟩
  intro isSubmitting user insertErrorCode h
  simp [messageHandleSubmit, h]

theorem message_validation_witness :
    messageHandleSubmit [' '] false (some "tenant") none =
      ⟨.blocked, 0, none⟩ :=
  (message_validation [' ']).2.1 false (some "tenant") none (by decide)

/-- C7: when the insert fails, the dialog shows exactly one of two
distinct user-facing failure messages — `Permission denied` when the
error code is the access-control rejection `42501`, and the generic
`Failed to send message` for any other error — and the insert is issued
exactly once, never retried. -/
theorem message_failure_messages (message : List Char) (user code : String)
    (hv : isValid message = true) :
    (code = "42501" →
      messageHandleSubmit message false (some user) (some code) =
        ⟨.permissionDenied, 1, some "Permission denied"⟩) ∧
    (code ≠ "42501" →
      messageHandleSubmit message false (some user) (some code) =
        ⟨.genericFailure, 1, some "Failed to send message"⟩) ∧
    ("Permission denied" : String) ≠ "Failed to send message" ∧
    (messageHandleSubmit message false (some user)
      (some code)).insertAttempts = 1 := by
  refine ⟨?_, ?_, by decide, ?_⟩
  · intro h
    simp [messageHandleSubmit, hv, h]
  · intro h
    simp [messageHandleSubmit, hv, h]
  · by_cases h : code = "42501" <;> simp [messageHandleSubmit, hv, h]

theorem message_failure_messages_witness :
    messageHandleSubmit ['h', 'i'] false (some "tenant") (some "42501") =
      ⟨.permissionDenied, 1, some "Permission denied"⟩ :=
  (message_failure_messages ['h', 'i'] "tenant" "42501" (by decide)).1 rfl

/-! ## CRUD mutation handlers (PropertiesSection, LeasesSection,
PaymentsSection) -/

/-- Effects of one run of a CRUD mutation handler: how many persistence
calls it issued, whether it refreshed the local list, whether it called
the `onUpdate` aggregator-refresh callback, and the toast it showed. -/
structure CrudEffects where
  persistAttempts : Nat
  listRefreshed : Bool
  onUpdateCalled : Bool
  toastTitle : Option String
  toastDescription : Option String
deriving DecidableEq

/-- `handleSubmit` of PropertiesSection.tsx (lines 51-94): return if no
user; update when editing, insert otherwise; on error toast and stop, on
success toast, reload the list and call `onUpdate`.  The auth lookup and
the persistence result are inputs; `persistError` carries the error
message when the call failed. -/
def propertiesHandleSubmit (user : Option String) (editing : Bool)
    (persistError : Option String) : CrudEffects :=
  match user with
  | none => ⟨0, false, false, none, none⟩
  | some _ =>
    if editing then
      match persistError with
      | some e => ⟨1, false, false, some "Error updating property", some e⟩
      | none => ⟨1, true, true, some "Property updated successfully", none⟩
    else
      match persistError with
      | some e => ⟨1, false, false, some "Error creating property", some e⟩
      | none => ⟨1, true, true, some "Property created successfully", none⟩

/-- `handleDelete` of PropertiesSection.tsx (lines 96-108): return unless
the blocking confirmation was accepted, then delete; on error toast and
stop, on success toast, reload and call `onUpdate`. -/
def propertiesHandleDelete (confirmed : Bool)
    (persistError : Option String) : CrudEffects :=
  if !confirmed then ⟨0, false, false, none, none⟩
  else
    match persistError with
    | some e => ⟨1, false, false, some "Error deleting property", some e⟩
    | none => ⟨1, true, true, some "Property deleted successfully", none⟩

/-- The insert step of the LeasesSection `handleSubmit` (lines 439-450). -/
def leasesInsertEffects (insertError : Option String) : CrudEffects :=
  match insertError with
  | some _ =>
      ⟨1, false, false, some "Error creating lease",
        some "Failed to create lease. Please try again."⟩
  | none => ⟨1, true, true, some "Lease created successfully", none⟩

/-- The `payment_due_day` validation of the LeasesSection `handleSubmit`
(lines 422-425): reject when `parseInt` returned NaN (modelled `none`) or
the day is outside `[1, 31]`. -/
def leasesDueDayCheck (paymentDueDay : Option Int)
    (insertError : Option String) : CrudEffects :=
  match paymentDueDay with
  | none =>
      ⟨0, false, false, some "Error",
        some "Payment due day must be between 1 and 31"⟩
  | some d =>
      if d < 1 ∨ 31 < d then
        ⟨0, false, false, some "Error",
          some "Payment due day must be between 1 and 31"⟩
      else leasesInsertEffects insertError

/-- The `deposit_amount` validation (lines 417-420): the field may be
absent (`none`, the code keeps `null`), present but not a number
(`some none`), or a parsed number (`some (some d)`, rejected when
negative). -/
def leasesDepositCheck (depositAmount : Option (Option ℚ))
    (paymentDueDay : Option Int) (insertError : Option String) :
    CrudEffects :=
  match depositAmount with
  | none => leasesDueDayCheck paymentDueDay insertError
  | some none =>
      ⟨0, false, false, some "Error",
        some "Please provide a valid deposit amount"⟩
  | some (some d) =>
      if d < 0 then
        ⟨0, false, false, some "Error",
          some "Please provide a valid deposit amount"⟩
      else leasesDueDayCheck paymentDueDay insertError

/-- The `rent_amount` validation (lines 412-415): reject when `parseFloat`
returned NaN (`none`) or the amount is not positive. -/
def leasesRentCheck (rentAmount : Option ℚ)
    (depositAmount : Option (Option ℚ)) (paymentDueDay : Option Int)
    (insertError : Option String) : CrudEffects :=
  match rentAmount with
  | none =>
      ⟨0, false, false, some "Error",
        some "Please provide a valid rent amount"⟩
  | some r =>
      if r ≤ 0 then
        ⟨0, false, false, some "Error",
          some "Please provide a valid rent amount"⟩
      else leasesDepositCheck depositAmount paymentDueDay insertError

/-- `handleSubmit` of LeasesSection (lines 378-455): auth check, tenant
email format check (the `RegExp` test is modelled as the boolean input
`emailFormatValid`), tenant profile lookup by email (`profileLookup`
carries the id of the matching profile, `none` when no profile matched),
then the field validations and the insert. -/
def leasesHandleSubmit (user : Option String) (emailFormatValid : Bool)
    (profileLookup : Option String) (rentAmount : Option ℚ)
    (depositAmount : Option (Option ℚ)) (paymentDueDay : Option Int)
    (insertError : Option String) : CrudEffects :=
  match user with
  | none => ⟨0, false, false, some "Error", some "You must be logged in"⟩
  | some _ =>
    if !emailFormatValid then
      ⟨0, false, false, some "Error",
        some "Please provide a valid tenant email"⟩
    else
      match profileLookup with
      | none =>
          ⟨0, false, false, some "Error",
            some "Tenant not found with this email"⟩
      | some _ =>
          leasesRentCheck rentAmount depositAmount paymentDueDay
            insertError

/-- `handleDelete` of LeasesSection (lines 457-482): confirmation prompt,
auth check, delete; on error toast and stop, on success toast, reload and
call `onUpdate`. -/
def leasesHandleDelete (confirmed : Bool) (user : Option String)
    (persistError : Option String) : CrudEffects :=
  if !confirmed then ⟨0, false, false, none, none⟩
  else
    match user with
    | none => ⟨0, false, false, some "Error", some "You must be logged in"⟩
    | some _ =>
      match persistError with
      | some _ =>
          ⟨1, false, false, some "Error deleting lease",
            some "Failed to delete lease. Please try again."⟩
      | none => ⟨1, true, true, some "Lease deleted successfully", none⟩

/-- `handleSubmit` of PaymentsSection (lines 130-165): validate the parsed
amount (`parseFloat`, NaN modelled `none`, reject unless positive), then
insert; on error toast and stop, on success toast, reload and call
`onUpdate`. -/
def paymentsHandleSubmit (amount : Option ℚ)
    (insertError : Option String) : CrudEffects :=
  match amount with
  | none =>
      ⟨0, false, false, some "Error",
        some "Please provide a valid amount greater than 0"⟩
  | some a =>
      if a ≤ 0 then
        ⟨0, false, false, some "Error",
          some "Please provide a valid amount greater than 0"⟩
      else
        match insertError with
        | some _ =>
            ⟨1, false, false, some "Error creating payment",
              some "Failed to create payment. Please try again."⟩
        | none =>
            ⟨1, true, true, some "Payment record created successfully",
              none⟩

/-- `markAsPaid` of PaymentsSection (lines 167-193): auth check, then an
update setting the status to `paid`; on error toast and stop, on success
toast, reload and call `onUpdate`. -/
def paymentsMarkAsPaid (user : Option String)
    (persistError : Option String) : CrudEffects :=
  match user with
  | none => ⟨0, false, false, some "Error", some "You must be logged in"⟩
  | some _ =>
    match persistError with
    | some _ =>
        ⟨1, false, false, some "Error updating payment",
          some "Failed to update payment. Please try again."⟩
    | none => ⟨1, true, true, some "Payment marked as paid", none⟩

theorem leasesHandleSubmit_cases (user : Option String)
    (emailFormatValid : Bool) (profileLookup : Option String)
    (rentAmount : Option ℚ) (depositAmount : Option (Option ℚ))
    (paymentDueDay : Option Int) (insertError : Option String) :
    (let E := leasesHandleSubmit user emailFormatValid profileLookup
        rentAmount depositAmount paymentDueDay insertError
     (E.persistAttempts = 0 ∧ E.listRefreshed = false ∧
        E.onUpdateCalled = false ∧ E.toastTitle = some "Error") ∨
      E = leasesInsertEffects insertError) := by
  unfold leasesHandleSubmit leasesRentCheck leasesDepositCheck
    leasesDueDayCheck
  repeat' split
  all_goals simp

/-- C5: lease creation rejects before attempting persistence — with a
user-facing `Error` toast and zero insert attempts — whenever no profile
matches the supplied tenant email, or the parsed rent amount is NaN or
not positive, or the parsed payment due day is NaN or outside `[1, 31]`. -/
theorem lease_validation (user : Option String) (emailFormatValid : Bool)
    (profileLookup : Option String) (rentAmount : Option ℚ)
    (depositAmount : Option (Option ℚ)) (paymentDueDay : Option Int)
    (insertError : Option String)
    (h : profileLookup = none ∨ rentAmount = none ∨
      (∃ r, rentAmount = some r ∧ r ≤ 0) ∨ paymentDueDay = none ∨
      (∃ d, paymentDueDay = some d ∧ (d < 1 ∨ 31 < d))) :
    (leasesHandleSubmit user emailFormatValid profileLookup rentAmount
      depositAmount paymentDueDay insertError).persistAttempts = 0 ∧
    (leasesHandleSubmit user emailFormatValid profileLookup rentAmount
      depositAmount paymentDueDay insertError).toastTitle =
      some "Error" := by
  have hdue : ∀ (due : Option Int) (ie : Option String),
      (due = none ∨ ∃ d, due = some d ∧ (d < 1 ∨ 31 < d)) →
      (leasesDueDayCheck due ie).persistAttempts = 0 ∧
        (leasesDueDayCheck due ie).toastTitle = some "Error" := by
    rintro due ie (rfl | ⟨d, rfl, hd0⟩)
    · simp [leasesDueDayCheck]
    · simp [leasesDueDayCheck, hd0]
  have hdeposit : ∀ (da : Option (Option ℚ)) (due : Option Int)
      (ie : Option String),
      (leasesDueDayCheck due ie).persistAttempts = 0 ∧
        (leasesDueDayCheck due ie).toastTitle = some "Error" →
      (leasesDepositCheck da due ie).persistAttempts = 0 ∧
        (leasesDepositCheck da due ie).toastTitle = some "Error" := by
    rintro (_ | _ | d) due ie hp
    · exact hp
    · simp [leasesDepositCheck]
    · by_cases hd : d < 0 <;> simp [leasesDepositCheck, hd]
      exact hp
  have hrent : ∀ (ra : Option ℚ) (da : Option (Option ℚ))
      (due : Option Int) (ie : Option String),
      (ra = none ∨ (∃ r, ra = some r ∧ r ≤ 0) ∨
        ((leasesDepositCheck da due ie).persistAttempts = 0 ∧
          (leasesDepositCheck da due ie).toastTitle = some "Error")) →
      (leasesRentCheck ra da due ie).persistAttempts = 0 ∧
        (leasesRentCheck ra da due ie).toastTitle = some "Error" := by
    rintro ra da due ie (rfl | ⟨r, rfl, hr0⟩ | hp)
    · simp [leasesRentCheck]
    · simp [leasesRentCheck, hr0]
    · cases ra with
      | none => simp [leasesRentCheck]
      | some r =>
        by_cases hr : r ≤ 0 <;> simp [leasesRentCheck, hr]
        exact hp
  cases user with
  | none => simp [leasesHandleSubmit]
  | some uid =>
    cases emailFormatValid with
    | false => simp [leasesHandleSubmit]
    | true =>
      rcases h with rfl | h | h | h | h
      · simp [leasesHandleSubmit]
      · cases profileLookup with
        | none => simp [leasesHandleSubmit]
        | some tid =>
          show (leasesRentCheck _ _ _ _).persistAttempts = 0 ∧
            (leasesRentCheck _ _ _ _).toastTitle = some "Error"
          exact hrent _ _ _ _ (Or.inl h)
      · cases profileLookup with
        | none => simp [leasesHandleSubmit]
        | some tid =>
          show (leasesRentCheck _ _ _ _).persistAttempts = 0 ∧
            (leasesRentCheck _ _ _ _).toastTitle = some "Error"
          exact hrent _ _ _ _ (Or.inr (Or.inl h))
      · cases profileLookup with
        | none => simp [leasesHandleSubmit]
        | some tid =>
          show (leasesRentCheck _ _ _ _).persistAttempts = 0 ∧
            (leasesRentCheck _ _ _ _).toastTitle = some "Error"
          exact hrent _ _ _ _ (Or.inr (Or.inr
            (hdeposit _ _ _ (hdue _ _ (Or.inl h)))))
      · cases profileLookup with
        | none => simp [leasesHandleSubmit]
        | some tid =>
          show (leasesRentCheck _ _ _ _).persistAttempts = 0 ∧
            (leasesRentCheck _ _ _ _).toastTitle = some "Error"
          exact hrent _ _ _ _ (Or.inr (Or.inr
            (hdeposit _ _ _ (hdue _ _ (Or.inr h)))))

theorem lease_validation_witness :
    (leasesHandleSubmit (some "landlord") true none (some 100) none
      (some 5) none).persistAttempts = 0 ∧
    (leasesHandleSubmit (some "landlord") true none (some 100) none
      (some 5) none).toastTitle = some "Error" :=
  lease_validation (some "landlord") true none (some 100) none (some 5)
    none (Or.inl rfl)

/-- The refresh contract every CRUD mutation handler follows: when the
persistence call was issued and succeeded, both the local list refresh
and the `onUpdate` aggregator-refresh callback run; when the persistence
call failed, neither runs and the call is not retried (at most one
attempt). -/
def crudContract (persistError : Option String) (E : CrudEffects) : Prop :=
  (persistError = none → E.persistAttempts = 1 →
    E.listRefreshed = true ∧ E.onUpdateCalled = true) ∧
  (∀ e, persistError = some e →
    E.listRefreshed = false ∧ E.onUpdateCalled = false ∧
      E.persistAttempts ≤ 1)

theorem propertiesHandleSubmit_contract (user : Option String)
    (editing : Bool) (persistError : Option String) :
    crudContract persistError
      (propertiesHandleSubmit user editing persistError) := by
  cases user <;> cases editing <;> cases persistError <;>
    simp [crudContract, propertiesHandleSubmit]

theorem propertiesHandleDelete_contract (confirmed : Bool)
    (persistError : Option String) :
    crudContract persistError
      (propertiesHandleDelete confirmed persistError) := by
  cases confirmed <;> cases persistError <;>
    simp [crudContract, propertiesHandleDelete]

theorem leasesHandleSubmit_contract (user : Option String)
    (emailFormatValid : Bool) (profileLookup : Option String)
    (rentAmount : Option ℚ) (depositAmount : Option (Option ℚ))
    (paymentDueDay : Option Int) (insertError : Option String) :
    crudContract insertError
      (leasesHandleSubmit user emailFormatValid profileLookup rentAmount
        depositAmount paymentDueDay insertError) := by
  rcases leasesHandleSubmit_cases user emailFormatValid profileLookup
      rentAmount depositAmount paymentDueDay insertError with
    ⟨h1, h2, h3, _⟩ | he
  · refine ⟨fun _ hat => ?_, fun e _ => ⟨h2, h3, by omega⟩⟩
    rw [h1] at hat
    exact absurd hat (by simp)
  · rw [he]
    cases insertError <;> simp [crudContract, leasesInsertEffects]

theorem leasesHandleDelete_contract (confirmed : Bool)
    (user : Option String) (persistError : Option String) :
    crudContract persistError
      (leasesHandleDelete confirmed user persistError) := by
  cases confirmed <;> cases user <;> cases persistError <;>
    simp [crudContract, leasesHandleDelete]

theorem paymentsHandleSubmit_contract (amount : Option ℚ)
    (insertError : Option String) :
    crudContract insertError (paymentsHandleSubmit amount insertError) := by
  cases amount with
  | none => cases insertError <;> simp [crudContract, paymentsHandleSubmit]
  | some a =>
    by_cases ha : a ≤ 0 <;> cases insertError <;>
      simp [crudContract, paymentsHandleSubmit, ha]

theorem paymentsMarkAsPaid_contract (user : Option String)
    (persistError : Option String) :
    crudContract persistError (paymentsMarkAsPaid user persistError) := by
  cases user <;> cases persistError <;>
    simp [crudContract, paymentsMarkAsPaid]

/-- C8: every modelled CRUD mutation — property create/update/delete,
lease create/delete, payment create and mark-as-paid — invokes both the
local list refresh and the `onUpdate` aggregator refresh when its
persistence call succeeds, and on a persistence failure abandons the
operation: neither refresh runs and the call is not retried. -/
theorem crud_refresh_contract (user : Option String)
    (editing confirmedP confirmedL emailFormatValid : Bool)
    (profileLookup : Option String) (rentAmount : Option ℚ)
    (depositAmount : Option (Option ℚ)) (paymentDueDay : Option Int)
    (amount : Option ℚ) (e1 e2 e3 e4 e5 e6 : Option String) :
    crudContract e1 (propertiesHandleSubmit user editing e1) ∧
    crudContract e2 (propertiesHandleDelete confirmedP e2) ∧
    crudContract e3 (leasesHandleSubmit user emailFormatValid
      profileLookup rentAmount depositAmount paymentDueDay e3) ∧
    crudContract e4 (leasesHandleDelete confirmedL user e4) ∧
    crudContract e5 (paymentsHandleSubmit amount e5) ∧
    crudContract e6 (paymentsMarkAsPaid user e6) :=
  ⟨propertiesHandleSubmit_contract user editing e1,
    propertiesHandleDelete_contract confirmedP e2,
    leasesHandleSubmit_contract user emailFormatValid profileLookup
      rentAmount depositAmount paymentDueDay e3,
    leasesHandleDelete_contract confirmedL user e4,
    paymentsHandleSubmit_contract amount e5,
    paymentsMarkAsPaid_contract user e6⟩

theorem crud_refresh_contract_witness :
    (propertiesHandleSubmit (some "landlord") false none).listRefreshed =
      true ∧
    (propertiesHandleSubmit (some "landlord") false none).onUpdateCalled =
      true :=
  (crud_refresh_contract (some "landlord") false true true true
    (some "tenant") (some 100) none (some 5) (some 100) none none none
    none none none).1.1 rfl rfl

end Homebase
